import Mathlib

/-!
Shallow embedding of `sol_contract/program/src/separate.rs`, the token and
account operations library of the repository.

Modelling choices:
* `Pubkey` is an abstract identifier, modelled as `Nat`.
* Lamport balances are `u64` values, modelled as `Nat` with the bound
  `2 ^ 64` made explicit exactly where the Rust code uses checked
  arithmetic (`checked_add` in `close`); `saturating_sub` is `Nat`
  subtraction, which is saturating by construction.
* Inter-program invocations (`invoke` / `invoke_signed`) are external
  effects: each operation is modelled as emitting a trace of issued calls
  (instruction plus the signer-seed groups passed along), with the outcome
  of each call supplied by an oracle function.  `invoke` passes no seed
  group; `invoke_signed(instr, accs, &[seeds])` passes `[seeds]`.
* `Rent::get()` is an external fallible read, supplied as an
  `Except ProgErr Rent` argument; `Rent.minimum_balance` is an abstract
  function of the byte count, per the rent model contract.
* The `spl_token::instruction` constructors are fallible: each first runs
  `check_program_account`, which fails with `IncorrectProgramId` unless the
  supplied token-program id equals the SPL token program id.
-/

namespace Separate

/-- Addresses are abstract identifiers. -/
abbrev Pubkey := Nat

/-- A signer seed set: an ordered sequence of byte strings (`&[&[u8]]`). -/
abbrev Seeds := List (List Nat)

/-- The fixed identifier of the external SPL token program
(`spl_token::id()`), an arbitrary distinguished address in this model. -/
def spl_token_id : Pubkey := 999

/-- The local error kinds of the library (`ErrorCode` variants referenced by
`separate.rs`). -/
inductive ErrorCode
  | TokenTransferFailed
  | TokenMintFailed
  | InitializeTokenAccountFailed
  | SetAccountAuthorityFailed
  | CloseAccountFailed
  deriving DecidableEq

/-- Program errors: local error kinds (`ErrorCode ... .into()`), the anchor
serialization error used by `close`, the `IncorrectProgramId` error raised by
`spl_token` instruction constructors, the account borrow failure of
`try_borrow_mut_data`, and arbitrary other runtime errors reported by the
inter-program call layer. -/
inductive ProgErr
  | custom (c : ErrorCode)
  | accountDidNotSerialize
  | incorrectProgramId
  | accountBorrowFailed
  | other (n : Nat)
  deriving DecidableEq

/-- Rent parameters: only `minimum_balance` (rent-exempt minimum as a function
of the data size in bytes) is consumed by this library. -/
structure Rent where
  minimum_balance : Nat → Nat

/-- The system-program instructions issued by `create_pda_account`
(`system_instruction::{transfer, allocate, assign, create_account}`). -/
inductive SystemInstr
  | transfer (funding_account recipient_account : Pubkey) (lamports : Nat)
  | allocate (pubkey : Pubkey) (space : Nat)
  | assign (pubkey : Pubkey) (owner : Pubkey)
  | create_account (from_pubkey to_pubkey : Pubkey) (lamports : Nat) (space : Nat)
      (owner : Pubkey)
  deriving DecidableEq

/-- True exactly on the atomic `create_account` instruction. -/
def SystemInstr.isCreateAccount : SystemInstr → Bool
  | .create_account _ _ _ _ _ => true
  | _ => false

/-- True exactly on the system `transfer` instruction. -/
def SystemInstr.isTransfer : SystemInstr → Bool
  | .transfer _ _ _ => true
  | _ => false

/-- One issued system-program call: the instruction together with the signer
seed groups passed to the runtime (`[]` for `invoke`, `[seeds]` for
`invoke_signed(_, _, &[seeds])`). -/
structure Cpi where
  instr : SystemInstr
  signers : List Seeds
  deriving DecidableEq

/-- Issue a list of calls in order through the oracle, stopping at the first
failure; returns the calls actually issued and the final result. -/
def runCalls (cpi : Cpi → Except ProgErr Unit) : List Cpi → List Cpi × Except ProgErr Unit
  | [] => ([], Except.ok ())
  | c :: cs =>
    match cpi c with
    | .error e => ([c], .error e)
    | .ok () =>
      let rest := runCalls cpi cs
      (c :: rest.1, rest.2)

/-- `create_pda_account` from `separate.rs`: ensure the target account exists,
sized to `space`, funded to the floored rent-exempt minimum, owned by `owner`.
Branches on whether the target already holds a positive balance; returns the
trace of issued system-program calls and the propagated result. -/
def create_pda_account (rentRes : Except ProgErr Rent) (cpi : Cpi → Except ProgErr Unit)
    (payer : Pubkey) (space : Nat) (owner : Pubkey)
    (new_pda_key : Pubkey) (new_pda_lamports : Nat)
    (new_pda_signer_seeds : Seeds) : List Cpi × Except ProgErr Unit :=
  match rentRes with
  | .error e => ([], .error e)
  | .ok rent =>
    if new_pda_lamports > 0 then
      let required_lamports :=
        max (rent.minimum_balance space) 1 - new_pda_lamports
      runCalls cpi
        ((if required_lamports > 0 then
            [⟨.transfer payer new_pda_key required_lamports, []⟩]
          else []) ++
         [⟨.allocate new_pda_key space, [new_pda_signer_seeds]⟩,
          ⟨.assign new_pda_key owner, [new_pda_signer_seeds]⟩])
    else
      runCalls cpi
        [⟨.create_account payer new_pda_key (max (rent.minimum_balance space) 1)
            space owner, [new_pda_signer_seeds]⟩]

/-- The four authority slots of `spl_token::instruction::AuthorityType`. -/
inductive AuthorityType
  | MintTokens
  | FreezeAccount
  | AccountOwner
  | CloseAccount
  deriving DecidableEq

/-- The token-program instructions built by the five wrapper operations. -/
inductive TokenInstr
  | transfer (token_program source destination authority : Pubkey) (amount : Nat)
  | mint_to (token_program mint destination authority : Pubkey) (amount : Nat)
  | initialize_account (token_program account mint owner : Pubkey)
  | set_authority (token_program account : Pubkey) (new_authority : Option Pubkey)
      (authority_type : AuthorityType) (current_authority : Pubkey)
  | close_account (token_program account destination owner : Pubkey)
  deriving DecidableEq

/-- One issued token-program call: instruction plus signer seed groups. -/
structure TokenCpi where
  instr : TokenInstr
  signers : List Seeds
  deriving DecidableEq

/-- `spl_token`'s `check_program_account`: instruction constructors fail with
`IncorrectProgramId` unless the supplied program id is the token program's. -/
def check_program_account (token_program_id : Pubkey) : Except ProgErr Unit :=
  if token_program_id = spl_token_id then .ok () else .error .incorrectProgramId

/-- `spl_token::instruction::transfer` (fallible constructor). -/
def mk_transfer (token_program_id source destination authority : Pubkey)
    (amount : Nat) : Except ProgErr TokenInstr :=
  match check_program_account token_program_id with
  | .error e => .error e
  | .ok () => .ok (.transfer token_program_id source destination authority amount)

/-- `spl_token::instruction::mint_to` (fallible constructor). -/
def mk_mint_to (token_program_id mint destination authority : Pubkey)
    (amount : Nat) : Except ProgErr TokenInstr :=
  match check_program_account token_program_id with
  | .error e => .error e
  | .ok () => .ok (.mint_to token_program_id mint destination authority amount)

/-- `spl_token::instruction::initialize_account` (fallible constructor). -/
def mk_initialize_account (token_program_id account mint owner : Pubkey) :
    Except ProgErr TokenInstr :=
  match check_program_account token_program_id with
  | .error e => .error e
  | .ok () => .ok (.initialize_account token_program_id account mint owner)

/-- `spl_token::instruction::set_authority` (fallible constructor); the new
authority is optional at the protocol level. -/
def mk_set_authority (token_program_id owned : Pubkey)
    (new_authority : Option Pubkey) (authority_type : AuthorityType)
    (owner : Pubkey) : Except ProgErr TokenInstr :=
  match check_program_account token_program_id with
  | .error e => .error e
  | .ok () => .ok (.set_authority token_program_id owned new_authority authority_type owner)

/-- `spl_token::instruction::close_account` (fallible constructor). -/
def mk_close_account (token_program_id account destination owner : Pubkey) :
    Except ProgErr TokenInstr :=
  match check_program_account token_program_id with
  | .error e => .error e
  | .ok () => .ok (.close_account token_program_id account destination owner)

/-- `TokenTransferParams` (keys and data consumed by the model). -/
structure TokenTransferParams where
  source_key : Pubkey
  destination_key : Pubkey
  amount : Nat
  authority_key : Pubkey
  authority_signer_seeds : Seeds
  token_program_key : Pubkey

/-- `spl_token_transfer` from `separate.rs`: build the transfer instruction
(construction errors propagate unchanged), issue it signed with the authority
seeds, and map any invocation failure to `TokenTransferFailed`. -/
def spl_token_transfer (tcpi : TokenCpi → Except ProgErr Unit)
    (params : TokenTransferParams) : List TokenCpi × Except ProgErr Unit :=
  match mk_transfer params.token_program_key params.source_key
      params.destination_key params.authority_key params.amount with
  | .error e => ([], .error e)
  | .ok i =>
    let call : TokenCpi := ⟨i, [params.authority_signer_seeds]⟩
    match tcpi call with
    | .ok () => ([call], .ok ())
    | .error _ => ([call], .error (.custom .TokenTransferFailed))

/-- `TokenMintParams` (keys and data consumed by the model). -/
structure TokenMintParams where
  mint_key : Pubkey
  to_key : Pubkey
  amount : Nat
  owner_key : Pubkey
  owner_signer_seeds : Seeds
  token_program_key : Pubkey

/-- `spl_token_mint` from `separate.rs`: mirror of the transfer wrapper with
failure mapped to `TokenMintFailed`. -/
def spl_token_mint (tcpi : TokenCpi → Except ProgErr Unit)
    (params : TokenMintParams) : List TokenCpi × Except ProgErr Unit :=
  match mk_mint_to params.token_program_key params.mint_key params.to_key
      params.owner_key params.amount with
  | .error e => ([], .error e)
  | .ok i =>
    let call : TokenCpi := ⟨i, [params.owner_signer_seeds]⟩
    match tcpi call with
    | .ok () => ([call], .ok ())
    | .error _ => ([call], .error (.custom .TokenMintFailed))

/-- `SetAuthorityParams` (keys and data consumed by the model). -/
structure SetAuthorityParams where
  account_key : Pubkey
  new_authority_key : Pubkey
  authority_type : AuthorityType
  owner_key : Pubkey
  owner_signer_seeds : Seeds
  token_program_key : Pubkey

/-- `spl_set_authority` from `separate.rs`: always passes
`Some(new_authority.key)` as the new authority; failure maps to
`SetAccountAuthorityFailed`. -/
def spl_set_authority (tcpi : TokenCpi → Except ProgErr Unit)
    (params : SetAuthorityParams) : List TokenCpi × Except ProgErr Unit :=
  match mk_set_authority params.token_program_key params.account_key
      (some params.new_authority_key) params.authority_type params.owner_key with
  | .error e => ([], .error e)
  | .ok i =>
    let call : TokenCpi := ⟨i, [params.owner_signer_seeds]⟩
    match tcpi call with
    | .ok () => ([call], .ok ())
    | .error _ => ([call], .error (.custom .SetAccountAuthorityFailed))

/-- `CloseAccountParams` (keys and data consumed by the model). -/
structure CloseAccountParams where
  account_key : Pubkey
  destination_key : Pubkey
  owner_key : Pubkey
  owner_signer_seeds : Seeds
  token_program_key : Pubkey

/-- `spl_close_account` from `separate.rs`: token-program-level close with
failure mapped to `CloseAccountFailed`. -/
def spl_close_account (tcpi : TokenCpi → Except ProgErr Unit)
    (params : CloseAccountParams) : List TokenCpi × Except ProgErr Unit :=
  match mk_close_account params.token_program_key params.account_key
      params.destination_key params.owner_key with
  | .error e => ([], .error e)
  | .ok i =>
    let call : TokenCpi := ⟨i, [params.owner_signer_seeds]⟩
    match tcpi call with
    | .ok () => ([call], .ok ())
    | .error _ => ([call], .error (.custom .CloseAccountFailed))

/-- `spl_token::state::Account::LEN`: the fixed length of a token account
record. -/
def ACCOUNT_LEN : Nat := 165

/-- `InitializeTokenAccountParams` (keys and data consumed by the model). -/
structure InitializeTokenAccountParams where
  account_key : Pubkey
  account_lamports : Nat
  account_signer_seeds : Seeds
  mint_key : Pubkey
  owner_key : Pubkey
  payer_key : Pubkey
  token_program_key : Pubkey

/-- `spl_init_token_account` from `separate.rs`: first create the account via
`create_pda_account` (space = `ACCOUNT_LEN`, owner = the token program); on
success build and issue `initialize_account` unsigned (`invoke`), mapping its
invocation failure to `InitializeTokenAccountFailed`.  Returns the system
trace, the token trace and the result. -/
def spl_init_token_account (rentRes : Except ProgErr Rent)
    (cpi : Cpi → Except ProgErr Unit) (tcpi : TokenCpi → Except ProgErr Unit)
    (params : InitializeTokenAccountParams) :
    List Cpi × List TokenCpi × Except ProgErr Unit :=
  let created := create_pda_account rentRes cpi params.payer_key ACCOUNT_LEN
    params.token_program_key params.account_key params.account_lamports
    params.account_signer_seeds
  match created.2 with
  | .error e => (created.1, [], .error e)
  | .ok () =>
    match mk_initialize_account params.token_program_key params.account_key
        params.mint_key params.owner_key with
    | .error e => (created.1, [], .error e)
    | .ok i =>
      let call : TokenCpi := ⟨i, []⟩
      match tcpi call with
      | .ok () => (created.1, [call], .ok ())
      | .error _ => (created.1, [call], .error (.custom .InitializeTokenAccountFailed))

/-- Anchor's `CLOSED_ACCOUNT_DISCRIMINATOR`: eight `0xFF` bytes. -/
def CLOSED_ACCOUNT_DISCRIMINATOR : List Nat := [255, 255, 255, 255, 255, 255, 255, 255]

/-- `2 ^ 64`, the modulus of the native `u64` balance type. -/
def U64_MOD : Nat := 2 ^ 64

/-- `u64::checked_add`: `none` exactly when the exact sum does not fit. -/
def checked_add (a b : Nat) : Option Nat :=
  if a + b < U64_MOD then some (a + b) else none

/-- `std::io::Cursor::write_all` on a `&mut [u8]` destination: when the source
fits it overwrites the first `src.length` bytes and succeeds; otherwise it
fills the whole destination with the matching source bytes and fails. -/
def cursor_write_all (dst src : List Nat) : List Nat × Bool :=
  if src.length ≤ dst.length then (src ++ dst.drop src.length, true)
  else (src.take dst.length, false)

/-- Outcome of `close`: a panic (failed `unwrap` of the checked addition), an
error carrying the account state at the moment of return, or success with the
final state.  `info_lamports`/`dest_lamports` are the closing account's and
the destination's balances; `info_data` is the closing account's data. -/
inductive CloseOutcome
  | panic
  | err (e : ProgErr) (info_lamports dest_lamports : Nat) (info_data : List Nat)
  | ok (info_lamports dest_lamports : Nat) (info_data : List Nat)
  deriving DecidableEq

/-- `close` from `separate.rs`: add the closing balance to the destination via
`checked_add(...).unwrap()`, zero the closing balance, then borrow the data
(`try_borrow_mut_data`, modelled by the `data_borrow_ok` flag) and overwrite
its first bytes with the closed-account discriminator, mapping a write failure
to `AccountDidNotSerialize`.  Balance mutations precede the data step. -/
def close (info_lamports dest_lamports : Nat) (info_data : List Nat)
    (data_borrow_ok : Bool) : CloseOutcome :=
  match checked_add dest_lamports info_lamports with
  | none => .panic
  | some new_dest =>
    if data_borrow_ok then
      match cursor_write_all info_data CLOSED_ACCOUNT_DISCRIMINATOR with
      | (d, true) => .ok 0 new_dest d
      | (d, false) => .err .accountDidNotSerialize 0 new_dest d
    else
      .err .accountBorrowFailed 0 new_dest info_data

/-- Every call actually issued by `runCalls` comes from the requested list. -/
theorem runCalls_mem (cpi : Cpi → Except ProgErr Unit) :
    ∀ cs : List Cpi, ∀ c ∈ (runCalls cpi cs).1, c ∈ cs := by
  intro cs
  induction cs with
  | nil => intro c hc; simp [runCalls] at hc
  | cons a as ih =>
    intro c hc
    unfold runCalls at hc
    cases h : cpi a with
    | error e =>
      rw [h] at hc
      simp at hc
      simp [hc]
    | ok u =>
      cases u
      rw [h] at hc
      simp at hc
      cases hc with
      | inl h1 => simp [h1]
      | inr h2 => exact List.mem_cons_of_mem a (ih c h2)

/-- When every call succeeds, `runCalls` issues the whole list and succeeds. -/
theorem runCalls_all_ok (cpi : Cpi → Except ProgErr Unit)
    (h : ∀ c, cpi c = Except.ok ()) :
    ∀ cs : List Cpi, runCalls cpi cs = (cs, Except.ok ()) := by
  intro cs
  induction cs with
  | nil => rfl
  | cons a as ih => simp [runCalls, h a, ih]

/-- A failing `runCalls` returns verbatim the error of one of the calls it
issued. -/
theorem runCalls_error_mem (cpi : Cpi → Except ProgErr Unit) :
    ∀ cs : List Cpi, ∀ e, (runCalls cpi cs).2 = Except.error e →
      ∃ c ∈ (runCalls cpi cs).1, cpi c = Except.error e := by
  intro cs
  induction cs with
  | nil => intro e he; simp [runCalls] at he
  | cons a as ih =>
    intro e he
    unfold runCalls at he ⊢
    cases h : cpi a with
    | error e2 =>
      rw [h] at he
      simp at he
      subst he
      exact ⟨a, by simp [h]⟩
    | ok u =>
      cases u
      rw [h] at he
      simp at he
      obtain ⟨c, hc, hce⟩ := ih e he
      exact ⟨c, by simp [h, hc], hce⟩

/-- Claim C1: with a zero starting balance, `create_pda_account` issues exactly
one system-program call — the atomic `create_account` funding the target to
`max (minimum_balance space) 1`, sizing it to `space`, assigning `owner`, and
signed with the new PDA's seeds — and propagates that call's result; no
transfer, allocate or assign call is made on this path. -/
theorem claim_C1_zero_balance_single_create (rent : Rent)
    (cpi : Cpi → Except ProgErr Unit) (payer space owner key : Nat)
    (seeds : Seeds) :
    create_pda_account (.ok rent) cpi payer space owner key 0 seeds =
      ([⟨.create_account payer key (max (rent.minimum_balance space) 1) space owner,
          [seeds]⟩],
       cpi ⟨.create_account payer key (max (rent.minimum_balance space) 1) space owner,
          [seeds]⟩) := by
  unfold create_pda_account
  simp only [gt_iff_lt, Nat.lt_irrefl, if_false]
  unfold runCalls
  cases h : cpi ⟨.create_account payer key (max (rent.minimum_balance space) 1) space owner,
      [seeds]⟩ with
  | error e => simp [h]
  | ok u => cases u; simp [h, runCalls]

/-- The list of system-program calls intended by `create_pda_account`'s
positive-balance branch: the top-up transfer when the saturating shortfall is
positive, then allocate and assign, the latter two signed with the seeds. -/
def pda_calls (rent : Rent) (payer space owner key lamports : Nat)
    (seeds : Seeds) : List Cpi :=
  (if max (rent.minimum_balance space) 1 - lamports > 0 then
      [⟨.transfer payer key (max (rent.minimum_balance space) 1 - lamports), []⟩]
    else []) ++
  [⟨.allocate key space, [seeds]⟩, ⟨.assign key owner, [seeds]⟩]

/-- No call of the positive-balance branch is the atomic `create_account`. -/
theorem pda_calls_no_create (rent : Rent) (payer space owner key lamports : Nat)
    (seeds : Seeds) :
    ∀ c ∈ pda_calls rent payer space owner key lamports seeds,
      c.instr.isCreateAccount = false := by
  intro c hc
  unfold pda_calls at hc
  split at hc
  · simp at hc
    rcases hc with h | h | h <;> subst h <;> rfl
  · simp at hc
    rcases hc with h | h <;> subst h <;> rfl

/-- On a positive starting balance, `create_pda_account` is `runCalls` over
the `pda_calls` sequence. -/
theorem create_pda_account_pos (rent : Rent) (cpi : Cpi → Except ProgErr Unit)
    (payer space owner key lamports : Nat) (seeds : Seeds) (hL : 0 < lamports) :
    create_pda_account (.ok rent) cpi payer space owner key lamports seeds =
      runCalls cpi (pda_calls rent payer space owner key lamports seeds) := by
  unfold create_pda_account pda_calls
  simp [hL]

/-- Claim C2: with a positive starting balance, `create_pda_account` runs the
three-call sequence `pda_calls` — (a) a transfer of the positive saturating
shortfall only, (b) allocate signed with the seeds, (c) assign signed with the
seeds, in that order (issued in full whenever every call succeeds) — and the
atomic `create_account` call is never issued on this path. -/
theorem claim_C2_positive_balance_separate_calls (rent : Rent)
    (cpi : Cpi → Except ProgErr Unit) (payer space owner key lamports : Nat)
    (seeds : Seeds) (hL : 0 < lamports) :
    create_pda_account (.ok rent) cpi payer space owner key lamports seeds =
      runCalls cpi (pda_calls rent payer space owner key lamports seeds) ∧
    ((∀ c, cpi c = Except.ok ()) →
      (create_pda_account (.ok rent) cpi payer space owner key lamports seeds).1 =
        pda_calls rent payer space owner key lamports seeds) ∧
    (∀ c ∈ (create_pda_account (.ok rent) cpi payer space owner key lamports seeds).1,
      c.instr.isCreateAccount = false) := by
  have hmain := create_pda_account_pos rent cpi payer space owner key lamports seeds hL
  refine ⟨hmain, ?_, ?_⟩
  · intro hok
    rw [hmain, runCalls_all_ok cpi hok]
  · intro c hc
    rw [hmain] at hc
    exact pda_calls_no_create rent payer space owner key lamports seeds c
      (runCalls_mem cpi _ c hc)

/-- Claim C2 witness: the pre-funded example of spec test 5 — balance 400000,
space 100, rent minimum 1000000 — yields transfer of 600000, then allocate,
then assign, with a success oracle. -/
theorem claim_C2_witness :
    (create_pda_account (.ok ⟨fun _ => 1000000⟩) (fun _ => Except.ok ())
        1 100 2 3 400000 [[7]]).1 =
      [⟨.transfer 1 3 600000, []⟩, ⟨.allocate 3 100, [[[7]]]⟩,
       ⟨.assign 3 2, [[[7]]]⟩] := by
  have h := (claim_C2_positive_balance_separate_calls ⟨fun _ => 1000000⟩
    (fun _ => Except.ok ()) 1 100 2 3 400000 [[7]] (by decide)).2.1
    (fun _ => rfl)
  rw [h]
  rfl

/-- Claim C3: when the starting balance already meets the floored rent-exempt
minimum, the saturating shortfall is zero, so no funding transfer is ever
issued, while allocate and assign are still performed (the full trace under a
success oracle is exactly those two calls). -/
theorem claim_C3_prefunded_no_transfer (rent : Rent)
    (cpi : Cpi → Except ProgErr Unit) (payer space owner key lamports : Nat)
    (seeds : Seeds) (hL : max (rent.minimum_balance space) 1 ≤ lamports) :
    max (rent.minimum_balance space) 1 - lamports = 0 ∧
    ((∀ c, cpi c = Except.ok ()) →
      (create_pda_account (.ok rent) cpi payer space owner key lamports seeds).1 =
        [⟨.allocate key space, [seeds]⟩, ⟨.assign key owner, [seeds]⟩]) ∧
    (∀ c ∈ (create_pda_account (.ok rent) cpi payer space owner key lamports seeds).1,
      c.instr.isTransfer = false) := by
  have hz : max (rent.minimum_balance space) 1 - lamports = 0 :=
    Nat.sub_eq_zero_of_le hL
  have hpos : 0 < lamports :=
    Nat.lt_of_lt_of_le (Nat.lt_of_lt_of_le Nat.zero_lt_one (Nat.le_max_right _ 1)) hL
  have hcalls : pda_calls rent payer space owner key lamports seeds =
      [⟨.allocate key space, [seeds]⟩, ⟨.assign key owner, [seeds]⟩] := by
    unfold pda_calls
    simp [hz]
  have hmain := create_pda_account_pos rent cpi payer space owner key lamports seeds hpos
  refine ⟨hz, ?_, ?_⟩
  · intro hok
    rw [hmain, runCalls_all_ok cpi hok, hcalls]
  · intro c hc
    rw [hmain] at hc
    have hmem := runCalls_mem cpi _ c hc
    rw [hcalls] at hmem
    simp at hmem
    rcases hmem with h | h <;> subst h <;> rfl

/-- Claim C3 witness: with rent minimum 1000000 and starting balance 1500000
(already above the minimum), the shortfall is zero and the full success trace
is exactly allocate then assign. -/
theorem claim_C3_witness :
    max ((1000000 : Nat)) 1 - 1500000 = 0 ∧
    (create_pda_account (.ok ⟨fun _ => 1000000⟩) (fun _ => Except.ok ())
        1 100 2 3 1500000 [[7]]).1 =
      [⟨.allocate 3 100, [[[7]]]⟩, ⟨.assign 3 2, [[[7]]]⟩] := by
  have h := claim_C3_prefunded_no_transfer ⟨fun _ => 1000000⟩
    (fun _ => Except.ok ()) 1 100 2 3 1500000 [[7]] (by decide)
  exact ⟨h.1, h.2.1 (fun _ => rfl)⟩

/-- `close` when the sum fits, the borrow succeeds and the buffer holds the
discriminator: success with the destination at the exact sum, the closing
balance zeroed and the discriminator written over the first eight bytes. -/
theorem close_ok_case (S D : Nat) (data : List Nat)
    (hov : D + S < U64_MOD) (hlen : 8 ≤ data.length) :
    close S D data true =
      .ok 0 (D + S) (CLOSED_ACCOUNT_DISCRIMINATOR ++ data.drop 8) := by
  have hlen2 : CLOSED_ACCOUNT_DISCRIMINATOR.length ≤ data.length := by
    rw [show CLOSED_ACCOUNT_DISCRIMINATOR.length = 8 from rfl]
    exact hlen
  simp [close, checked_add, cursor_write_all, hov, hlen2, hlen,
    show CLOSED_ACCOUNT_DISCRIMINATOR.length = 8 from rfl]

/-- `close` when the sum fits but the buffer is shorter than the
discriminator: the write fails with `AccountDidNotSerialize` after the balance
mutations. -/
theorem close_short_data (S D : Nat) (data : List Nat)
    (hov : D + S < U64_MOD) (hlen : data.length < 8) :
    close S D data true =
      .err .accountDidNotSerialize 0 (D + S)
        (CLOSED_ACCOUNT_DISCRIMINATOR.take data.length) := by
  have hlen2 : ¬ CLOSED_ACCOUNT_DISCRIMINATOR.length ≤ data.length := by
    rw [show CLOSED_ACCOUNT_DISCRIMINATOR.length = 8 from rfl]
    exact Nat.not_le_of_lt hlen
  simp [close, checked_add, cursor_write_all, hov, hlen2]

/-- `close` when the sum fits but the data borrow fails: the borrow error is
returned after the balance mutations. -/
theorem close_no_borrow (S D : Nat) (data : List Nat)
    (hov : D + S < U64_MOD) :
    close S D data false = .err .accountBorrowFailed 0 (D + S) data := by
  simp [close, checked_add, hov]

/-- `close` when the exact sum does not fit in a `u64`: the failed `unwrap`
panics before any mutation. -/
theorem close_panic_case (S D : Nat) (data : List Nat) (b : Bool)
    (hov : U64_MOD ≤ D + S) :
    close S D data b = .panic := by
  simp [close, checked_add, Nat.not_lt_of_le hov]

/-- Claim C4: on success, `close` leaves the destination at exactly `D + S`
(the checked sum), the closing account at `0`, and the closing account's data
beginning with the closed-account discriminator; a failure of the
discriminator write (buffer shorter than the discriminator) returns the
`AccountDidNotSerialize` error kind. -/
theorem claim_C4_close_success_state (S D : Nat) (data : List Nat) (b : Bool) :
    (∀ il dl d2, close S D data b = .ok il dl d2 →
      dl = D + S ∧ il = 0 ∧ d2.take 8 = CLOSED_ACCOUNT_DISCRIMINATOR) ∧
    (D + S < U64_MOD → b = true → data.length < 8 →
      close S D data b =
        .err .accountDidNotSerialize 0 (D + S)
          (CLOSED_ACCOUNT_DISCRIMINATOR.take data.length)) := by
  constructor
  · intro il dl d2 h
    rcases Nat.lt_or_ge (D + S) U64_MOD with hov | hov
    · cases b with
      | false => rw [close_no_borrow S D data hov] at h; exact absurd h (by simp)
      | true =>
        rcases Nat.lt_or_ge data.length 8 with hlen | hlen
        · rw [close_short_data S D data hov hlen] at h
          exact absurd h (by simp)
        · rw [close_ok_case S D data hov hlen] at h
          have h2 := h
          simp only [CloseOutcome.ok.injEq] at h2
          obtain ⟨h0, hD, hd⟩ := h2
          refine ⟨hD.symm, h0.symm, ?_⟩
          rw [← hd, show (8 : Nat) = CLOSED_ACCOUNT_DISCRIMINATOR.length from rfl,
            List.take_left]
    · rw [close_panic_case S D data b hov] at h
      exact absurd h (by simp)
  · intro hov hb hlen
    subst hb
    exact close_short_data S D data hov hlen

/-- Claim C4 witness: closing balance 5 into destination 7 with a 10-byte
buffer succeeds with destination 12 and the discriminator written; with a
2-byte buffer the write fails with `AccountDidNotSerialize` after the balance
mutations. -/
theorem claim_C4_witness :
    ((12 : Nat) = 7 + 5 ∧ (0 : Nat) = 0 ∧
      ((CLOSED_ACCOUNT_DISCRIMINATOR ++ [1, 2]).take 8 = CLOSED_ACCOUNT_DISCRIMINATOR)) ∧
    close 5 7 [9, 9] true =
      .err .accountDidNotSerialize 0 12 (CLOSED_ACCOUNT_DISCRIMINATOR.take 2) := by
  constructor
  · exact (claim_C4_close_success_state 5 7 [0, 0, 0, 0, 0, 0, 0, 0, 1, 2] true).1
      0 12 (CLOSED_ACCOUNT_DISCRIMINATOR ++ [1, 2]) (by decide)
  · exact (claim_C4_close_success_state 5 7 [9, 9] true).2 (by decide) rfl (by decide)

/-- Claim C5: when `D + S` exceeds the `u64` maximum, `close` panics (the
failed `unwrap` of the checked addition); the destination is never set to a
wrapped value, and the success outcome is reachable only when the sum fits,
in which case the destination holds the exact (unwrapped) sum. -/
theorem claim_C5_close_overflow_fatal (S D : Nat) (data : List Nat) (b : Bool) :
    (U64_MOD ≤ D + S → close S D data b = .panic) ∧
    (∀ il dl d2, close S D data b = .ok il dl d2 → D + S < U64_MOD ∧ dl = D + S) := by
  constructor
  · intro hov
    exact close_panic_case S D data b hov
  · intro il dl d2 h
    rcases Nat.lt_or_ge (D + S) U64_MOD with hov | hov
    · refine ⟨hov, ?_⟩
      cases b with
      | false => rw [close_no_borrow S D data hov] at h; exact absurd h (by simp)
      | true =>
        rcases Nat.lt_or_ge data.length 8 with hlen | hlen
        · rw [close_short_data S D data hov hlen] at h
          exact absurd h (by simp)
        · rw [close_ok_case S D data hov hlen] at h
          simp only [CloseOutcome.ok.injEq] at h
          exact h.2.1.symm
    · rw [close_panic_case S D data b hov] at h
      exact absurd h (by simp)

/-- Claim C5 witness: destination `2^64 - 1` and closing balance `1` make the
sum overflow, so `close` panics; and a successful concrete run certifies the
no-overflow bound of the success branch. -/
theorem claim_C5_witness :
    close 1 (U64_MOD - 1) [] true = .panic ∧
    ((7 : Nat) + 5 < U64_MOD ∧ (12 : Nat) = 7 + 5) := by
  constructor
  · exact (claim_C5_close_overflow_fatal 1 (U64_MOD - 1) [] true).1 (by decide)
  · exact (claim_C5_close_overflow_fatal 5 7 [0, 0, 0, 0, 0, 0, 0, 0] true).2
      0 12 CLOSED_ACCOUNT_DISCRIMINATOR (by decide)

/-- Claim C10: `close` is not atomic on failure — whenever the sum fits but
the discriminator step fails (data borrow refused, or buffer shorter than the
discriminator), the returned error carries a state in which the destination
already holds `D + S` and the closing account already holds `0`. -/
theorem claim_C10_close_not_atomic (S D : Nat) (data : List Nat) (b : Bool)
    (hov : D + S < U64_MOD) (hfail : b = false ∨ data.length < 8) :
    ∃ e d2, close S D data b = .err e 0 (D + S) d2 := by
  rcases hfail with hb | hlen
  · subst hb
    exact ⟨.accountBorrowFailed, data, close_no_borrow S D data hov⟩
  · cases b with
    | false => exact ⟨.accountBorrowFailed, data, close_no_borrow S D data hov⟩
    | true =>
      exact ⟨.accountDidNotSerialize, CLOSED_ACCOUNT_DISCRIMINATOR.take data.length,
        close_short_data S D data hov hlen⟩

/-- Claim C10 witness: closing balance 5 into destination 7 with a 2-byte
buffer returns an error whose carried state already has destination 12 and
closing balance 0. -/
theorem claim_C10_witness :
    ∃ e d2, close 5 7 [9, 9] true = .err e 0 12 d2 :=
  claim_C10_close_not_atomic 5 7 [9, 9] true (by decide) (Or.inr (by decide))

/-- On a zero starting balance, `create_pda_account` is `runCalls` over the
singleton atomic `create_account` call. -/
theorem create_pda_account_zero (rent : Rent) (cpi : Cpi → Except ProgErr Unit)
    (payer space owner key : Nat) (seeds : Seeds) :
    create_pda_account (.ok rent) cpi payer space owner key 0 seeds =
      runCalls cpi
        [⟨.create_account payer key (max (rent.minimum_balance space) 1) space owner,
          [seeds]⟩] := by
  unfold create_pda_account
  simp

/-- A failing `create_pda_account` (with readable rent) returns verbatim the
error of one of the system calls it issued. -/
theorem create_pda_error_mem (rent : Rent) (cpi : Cpi → Except ProgErr Unit)
    (payer space owner key lamports : Nat) (seeds : Seeds) (e : ProgErr)
    (he : (create_pda_account (.ok rent) cpi payer space owner key lamports seeds).2 =
      Except.error e) :
    ∃ c ∈ (create_pda_account (.ok rent) cpi payer space owner key lamports seeds).1,
      cpi c = Except.error e := by
  by_cases h : 0 < lamports
  · rw [create_pda_account_pos rent cpi payer space owner key lamports seeds h] at he ⊢
    exact runCalls_error_mem cpi _ e he
  · have h0 : lamports = 0 := Nat.eq_zero_of_not_pos h
    subst h0
    rw [create_pda_account_zero rent cpi payer space owner key seeds] at he ⊢
    exact runCalls_error_mem cpi _ e he

/-- Claim C6: `spl_init_token_account` first runs `create_pda_account` with
space `ACCOUNT_LEN` and owner the token program (its system trace is exactly
that call's trace); when creation fails, no token call is issued and the
creation error returns unchanged; when creation succeeds (and the token
program id is the SPL token id so the instruction builds), the
`initialize_account` invocation is issued unsigned, and its failure maps to
`InitializeTokenAccountFailed`. -/
theorem claim_C6_init_two_phase (rentRes : Except ProgErr Rent)
    (cpi : Cpi → Except ProgErr Unit) (tcpi : TokenCpi → Except ProgErr Unit)
    (params : InitializeTokenAccountParams) :
    (spl_init_token_account rentRes cpi tcpi params).1 =
      (create_pda_account rentRes cpi params.payer_key ACCOUNT_LEN
        params.token_program_key params.account_key params.account_lamports
        params.account_signer_seeds).1 ∧
    (∀ e, (create_pda_account rentRes cpi params.payer_key ACCOUNT_LEN
        params.token_program_key params.account_key params.account_lamports
        params.account_signer_seeds).2 = Except.error e →
      spl_init_token_account rentRes cpi tcpi params =
        ((create_pda_account rentRes cpi params.payer_key ACCOUNT_LEN
            params.token_program_key params.account_key params.account_lamports
            params.account_signer_seeds).1, [], Except.error e)) ∧
    ((create_pda_account rentRes cpi params.payer_key ACCOUNT_LEN
        params.token_program_key params.account_key params.account_lamports
        params.account_signer_seeds).2 = Except.ok () →
      params.token_program_key = spl_token_id →
      (spl_init_token_account rentRes cpi tcpi params).2.1 =
        [⟨.initialize_account params.token_program_key params.account_key
            params.mint_key params.owner_key, []⟩] ∧
      ∀ e, tcpi ⟨.initialize_account params.token_program_key params.account_key
            params.mint_key params.owner_key, []⟩ = Except.error e →
        (spl_init_token_account rentRes cpi tcpi params).2.2 =
          Except.error (.custom .InitializeTokenAccountFailed)) := by
  cases h2 : (create_pda_account rentRes cpi params.payer_key ACCOUNT_LEN
      params.token_program_key params.account_key params.account_lamports
      params.account_signer_seeds).2 with
  | error e0 =>
    refine ⟨?_, ?_, ?_⟩
    · simp [spl_init_token_account, h2]
    · intro e he
      simp at he
      subst he
      simp [spl_init_token_account, h2]
    · intro hok
      exact absurd hok (by simp)
  | ok u =>
    cases u
    refine ⟨?_, ?_, ?_⟩
    · by_cases hk : params.token_program_key = spl_token_id
      · have hcp : check_program_account params.token_program_key = Except.ok () := by
          simp [check_program_account, hk]
        cases h3 : tcpi ⟨.initialize_account params.token_program_key params.account_key
            params.mint_key params.owner_key, []⟩ with
        | error e1 =>
          simp [spl_init_token_account, h2, mk_initialize_account, hcp, h3]
        | ok u2 =>
          cases u2
          simp [spl_init_token_account, h2, mk_initialize_account, hcp, h3]
      · have hcp : check_program_account params.token_program_key =
            Except.error .incorrectProgramId := by
          simp [check_program_account, hk]
        simp [spl_init_token_account, h2, mk_initialize_account, hcp]
    · intro e he
      exact absurd he (by simp)
    · intro _ hk
      have hcp : check_program_account params.token_program_key = Except.ok () := by
        simp [check_program_account, hk]
      constructor
      · cases h3 : tcpi ⟨.initialize_account params.token_program_key params.account_key
            params.mint_key params.owner_key, []⟩ with
        | error e1 =>
          simp [spl_init_token_account, h2, mk_initialize_account, hcp, h3]
        | ok u2 =>
          cases u2
          simp [spl_init_token_account, h2, mk_initialize_account, hcp, h3]
      · intro e he
        simp [spl_init_token_account, h2, mk_initialize_account, hcp, he]

/-- Claim C6 witness: with an unreadable rent sysvar the creation error
`other 5` returns unchanged and no token call is issued; with creation
succeeding and the initialize invocation failing, the result is
`InitializeTokenAccountFailed`. -/
theorem claim_C6_witness :
    spl_init_token_account (.error (.other 5)) (fun _ => Except.ok ())
        (fun _ => Except.ok ()) ⟨4, 0, [[7]], 5, 6, 1, spl_token_id⟩ =
      ([], [], Except.error (.other 5)) ∧
    (spl_init_token_account (.ok ⟨fun _ => 10⟩) (fun _ => Except.ok ())
        (fun _ => Except.error (.other 3)) ⟨4, 0, [[7]], 5, 6, 1, spl_token_id⟩).2.2 =
      Except.error (.custom .InitializeTokenAccountFailed) := by
  constructor
  · exact (claim_C6_init_two_phase (.error (.other 5)) (fun _ => Except.ok ())
      (fun _ => Except.ok ()) ⟨4, 0, [[7]], 5, 6, 1, spl_token_id⟩).2.1 (.other 5) rfl
  · exact ((claim_C6_init_two_phase (.ok ⟨fun _ => 10⟩) (fun _ => Except.ok ())
      (fun _ => Except.error (.other 3)) ⟨4, 0, [[7]], 5, 6, 1, spl_token_id⟩).2.2
      rfl rfl).2 (.other 3) rfl

/-- Claim C7: in each of the five token operations, every invocation failure —
whatever the underlying error `e` — is mapped to the operation's single local
error kind (`TokenTransferFailed`, `TokenMintFailed`,
`InitializeTokenAccountFailed`, `SetAccountAuthorityFailed`,
`CloseAccountFailed`), so the returned error does not depend on `e`. -/
theorem claim_C7_uniform_error_collapse (tcpi : TokenCpi → Except ProgErr Unit)
    (rentRes : Except ProgErr Rent) (cpi : Cpi → Except ProgErr Unit)
    (p1 : TokenTransferParams) (p2 : TokenMintParams)
    (p3 : InitializeTokenAccountParams) (p4 : SetAuthorityParams)
    (p5 : CloseAccountParams) :
    (p1.token_program_key = spl_token_id →
      ∀ e, tcpi ⟨.transfer p1.token_program_key p1.source_key p1.destination_key
          p1.authority_key p1.amount, [p1.authority_signer_seeds]⟩ = Except.error e →
      (spl_token_transfer tcpi p1).2 = Except.error (.custom .TokenTransferFailed)) ∧
    (p2.token_program_key = spl_token_id →
      ∀ e, tcpi ⟨.mint_to p2.token_program_key p2.mint_key p2.to_key
          p2.owner_key p2.amount, [p2.owner_signer_seeds]⟩ = Except.error e →
      (spl_token_mint tcpi p2).2 = Except.error (.custom .TokenMintFailed)) ∧
    (p3.token_program_key = spl_token_id →
      (create_pda_account rentRes cpi p3.payer_key ACCOUNT_LEN
        p3.token_program_key p3.account_key p3.account_lamports
        p3.account_signer_seeds).2 = Except.ok () →
      ∀ e, tcpi ⟨.initialize_account p3.token_program_key p3.account_key
          p3.mint_key p3.owner_key, []⟩ = Except.error e →
      (spl_init_token_account rentRes cpi tcpi p3).2.2 =
        Except.error (.custom .InitializeTokenAccountFailed)) ∧
    (p4.token_program_key = spl_token_id →
      ∀ e, tcpi ⟨.set_authority p4.token_program_key p4.account_key
          (some p4.new_authority_key) p4.authority_type p4.owner_key,
          [p4.owner_signer_seeds]⟩ = Except.error e →
      (spl_set_authority tcpi p4).2 =
        Except.error (.custom .SetAccountAuthorityFailed)) ∧
    (p5.token_program_key = spl_token_id →
      ∀ e, tcpi ⟨.close_account p5.token_program_key p5.account_key
          p5.destination_key p5.owner_key, [p5.owner_signer_seeds]⟩ = Except.error e →
      (spl_close_account tcpi p5).2 = Except.error (.custom .CloseAccountFailed)) := by
  refine ⟨?_, ?_, ?_, ?_, ?_⟩
  · intro hk e he
    have hcp : check_program_account p1.token_program_key = Except.ok () := by
      simp [check_program_account, hk]
    simp [spl_token_transfer, mk_transfer, hcp, he]
  · intro hk e he
    have hcp : check_program_account p2.token_program_key = Except.ok () := by
      simp [check_program_account, hk]
    simp [spl_token_mint, mk_mint_to, hcp, he]
  · intro hk h2 e he
    have hcp : check_program_account p3.token_program_key = Except.ok () := by
      simp [check_program_account, hk]
    simp [spl_init_token_account, h2, mk_initialize_account, hcp, he]
  · intro hk e he
    have hcp : check_program_account p4.token_program_key = Except.ok () := by
      simp [check_program_account, hk]
    simp [spl_set_authority, mk_set_authority, hcp, he]
  · intro hk e he
    have hcp : check_program_account p5.token_program_key = Except.ok () := by
      simp [check_program_account, hk]
    simp [spl_close_account, mk_close_account, hcp, he]

/-- Claim C7 witness: with an invocation oracle failing with `other 3`, each of
the five operations at concrete parameters returns its own fixed local error
kind. -/
theorem claim_C7_witness :
    (spl_token_transfer (fun _ => Except.error (.other 3))
        ⟨1, 2, 50, 3, [[7]], spl_token_id⟩).2 =
      Except.error (.custom .TokenTransferFailed) ∧
    (spl_token_mint (fun _ => Except.error (.other 3))
        ⟨1, 2, 50, 3, [[7]], spl_token_id⟩).2 =
      Except.error (.custom .TokenMintFailed) ∧
    (spl_init_token_account (.ok ⟨fun _ => 10⟩) (fun _ => Except.ok ())
        (fun _ => Except.error (.other 3)) ⟨4, 0, [[7]], 5, 6, 1, spl_token_id⟩).2.2 =
      Except.error (.custom .InitializeTokenAccountFailed) ∧
    (spl_set_authority (fun _ => Except.error (.other 3))
        ⟨4, 5, .AccountOwner, 6, [[8]], spl_token_id⟩).2 =
      Except.error (.custom .SetAccountAuthorityFailed) ∧
    (spl_close_account (fun _ => Except.error (.other 3))
        ⟨4, 5, 6, [[8]], spl_token_id⟩).2 =
      Except.error (.custom .CloseAccountFailed) := by
  have h := claim_C7_uniform_error_collapse (fun _ => Except.error (.other 3))
    (.ok ⟨fun _ => 10⟩) (fun _ => Except.ok ())
    ⟨1, 2, 50, 3, [[7]], spl_token_id⟩ ⟨1, 2, 50, 3, [[7]], spl_token_id⟩
    ⟨4, 0, [[7]], 5, 6, 1, spl_token_id⟩ ⟨4, 5, .AccountOwner, 6, [[8]], spl_token_id⟩
    ⟨4, 5, 6, [[8]], spl_token_id⟩
  exact ⟨h.1 rfl (.other 3) rfl, h.2.1 rfl (.other 3) rfl,
    h.2.2.1 rfl rfl (.other 3) rfl, h.2.2.2.1 rfl (.other 3) rfl,
    h.2.2.2.2 rfl (.other 3) rfl⟩

/-- Claim C8: `create_pda_account` introduces no local error kind — a failure
is either the rent-read error or verbatim the error of one of the system calls
it issued; and in the five token operations an error raised while building the
underlying instruction (here `IncorrectProgramId` from the program-id check)
propagates unwrapped, before any invocation. -/
theorem claim_C8_unwrapped_propagation (rentRes : Except ProgErr Rent)
    (cpi : Cpi → Except ProgErr Unit) (payer space owner key lamports : Nat)
    (seeds : Seeds) (tcpi : TokenCpi → Except ProgErr Unit)
    (p1 : TokenTransferParams) (p2 : TokenMintParams)
    (p3 : InitializeTokenAccountParams) (p4 : SetAuthorityParams)
    (p5 : CloseAccountParams) :
    (∀ e, (create_pda_account rentRes cpi payer space owner key lamports seeds).2 =
        Except.error e →
      rentRes = Except.error e ∨
      ∃ c ∈ (create_pda_account rentRes cpi payer space owner key lamports seeds).1,
        cpi c = Except.error e) ∧
    (p1.token_program_key ≠ spl_token_id →
      spl_token_transfer tcpi p1 = ([], Except.error .incorrectProgramId)) ∧
    (p2.token_program_key ≠ spl_token_id →
      spl_token_mint tcpi p2 = ([], Except.error .incorrectProgramId)) ∧
    ((create_pda_account rentRes cpi p3.payer_key ACCOUNT_LEN
        p3.token_program_key p3.account_key p3.account_lamports
        p3.account_signer_seeds).2 = Except.ok () →
      p3.token_program_key ≠ spl_token_id →
      spl_init_token_account rentRes cpi tcpi p3 =
        ((create_pda_account rentRes cpi p3.payer_key ACCOUNT_LEN
            p3.token_program_key p3.account_key p3.account_lamports
            p3.account_signer_seeds).1, [], Except.error .incorrectProgramId)) ∧
    (p4.token_program_key ≠ spl_token_id →
      spl_set_authority tcpi p4 = ([], Except.error .incorrectProgramId)) ∧
    (p5.token_program_key ≠ spl_token_id →
      spl_close_account tcpi p5 = ([], Except.error .incorrectProgramId)) := by
  refine ⟨?_, ?_, ?_, ?_, ?_, ?_⟩
  · intro e he
    cases rentRes with
    | error e0 =>
      left
      unfold create_pda_account at he
      simp at he
      rw [he]
    | ok rent =>
      right
      exact create_pda_error_mem rent cpi payer space owner key lamports seeds e he
  · intro hk
    simp [spl_token_transfer, mk_transfer, check_program_account, hk]
  · intro hk
    simp [spl_token_mint, mk_mint_to, check_program_account, hk]
  · intro h2 hk
    simp [spl_init_token_account, h2, mk_initialize_account, check_program_account, hk]
  · intro hk
    simp [spl_set_authority, mk_set_authority, check_program_account, hk]
  · intro hk
    simp [spl_close_account, mk_close_account, check_program_account, hk]

/-- Claim C8 witness: an unreadable rent sysvar propagates the `other 5` error
unchanged out of `create_pda_account`, and a wrong token-program id (0) makes
each token operation return `IncorrectProgramId` unwrapped. -/
theorem claim_C8_witness :
    ((Except.error (.other 5) : Except ProgErr Rent) = Except.error (.other 5) ∨
      ∃ c ∈ (create_pda_account (.error (.other 5)) (fun _ => Except.ok ())
          1 100 2 3 0 [[7]]).1, (fun _ => Except.ok () : Cpi → Except ProgErr Unit) c =
            Except.error (.other 5)) ∧
    spl_token_transfer (fun _ => Except.ok ()) ⟨1, 2, 50, 3, [[7]], 0⟩ =
      ([], Except.error .incorrectProgramId) ∧
    spl_token_mint (fun _ => Except.ok ()) ⟨1, 2, 50, 3, [[7]], 0⟩ =
      ([], Except.error .incorrectProgramId) ∧
    (spl_init_token_account (.ok ⟨fun _ => 10⟩) (fun _ => Except.ok ())
        (fun _ => Except.ok ()) ⟨4, 0, [[7]], 5, 6, 1, 0⟩).2.2 =
      Except.error .incorrectProgramId ∧
    spl_set_authority (fun _ => Except.ok ()) ⟨4, 5, .AccountOwner, 6, [[8]], 0⟩ =
      ([], Except.error .incorrectProgramId) ∧
    spl_close_account (fun _ => Except.ok ()) ⟨4, 5, 6, [[8]], 0⟩ =
      ([], Except.error .incorrectProgramId) := by
  have h := claim_C8_unwrapped_propagation (.error (.other 5)) (fun _ => Except.ok ())
    1 100 2 3 0 [[7]] (fun _ => Except.ok ()) ⟨1, 2, 50, 3, [[7]], 0⟩
    ⟨1, 2, 50, 3, [[7]], 0⟩ ⟨4, 0, [[7]], 5, 6, 1, 0⟩
    ⟨4, 5, .AccountOwner, 6, [[8]], 0⟩ ⟨4, 5, 6, [[8]], 0⟩
  have h3 := claim_C8_unwrapped_propagation (.ok ⟨fun _ => 10⟩) (fun _ => Except.ok ())
    1 100 2 3 0 [[7]] (fun _ => Except.ok ()) ⟨1, 2, 50, 3, [[7]], 0⟩
    ⟨1, 2, 50, 3, [[7]], 0⟩ ⟨4, 0, [[7]], 5, 6, 1, 0⟩
    ⟨4, 5, .AccountOwner, 6, [[8]], 0⟩ ⟨4, 5, 6, [[8]], 0⟩
  refine ⟨h.1 (.other 5) rfl, h.2.1 (by decide), h.2.2.1 (by decide), ?_,
    h.2.2.2.2.1 (by decide), h.2.2.2.2.2 (by decide)⟩
  have := h3.2.2.2.1 rfl (by decide)
  rw [this]

/-- Claim C9: `spl_set_authority` always passes a concrete new authority —
every call it issues carries `some new_authority_key` (never the protocol's
`none`/revoke variant), and when the instruction builds, the single issued
call is exactly the set-authority instruction with that `some`, signed with
the owner's seeds. -/
theorem claim_C9_set_authority_always_some (tcpi : TokenCpi → Except ProgErr Unit)
    (params : SetAuthorityParams) :
    (∀ c ∈ (spl_set_authority tcpi params).1,
      c.instr = .set_authority params.token_program_key params.account_key
        (some params.new_authority_key) params.authority_type params.owner_key) ∧
    (params.token_program_key = spl_token_id →
      (spl_set_authority tcpi params).1 =
        [⟨.set_authority params.token_program_key params.account_key
            (some params.new_authority_key) params.authority_type params.owner_key,
          [params.owner_signer_seeds]⟩]) := by
  constructor
  · intro c hc
    by_cases hk : params.token_program_key = spl_token_id
    · have hcp : check_program_account params.token_program_key = Except.ok () := by
        simp [check_program_account, hk]
      cases h3 : tcpi ⟨.set_authority params.token_program_key params.account_key
          (some params.new_authority_key) params.authority_type params.owner_key,
          [params.owner_signer_seeds]⟩ with
      | error e1 =>
        simp [spl_set_authority, mk_set_authority, hcp, h3] at hc
        rw [hc]
      | ok u =>
        cases u
        simp [spl_set_authority, mk_set_authority, hcp, h3] at hc
        rw [hc]
    · have hcp : check_program_account params.token_program_key =
          Except.error .incorrectProgramId := by
        simp [check_program_account, hk]
      simp [spl_set_authority, mk_set_authority, hcp] at hc
  · intro hk
    have hcp : check_program_account params.token_program_key = Except.ok () := by
      simp [check_program_account, hk]
    cases h3 : tcpi ⟨.set_authority params.token_program_key params.account_key
        (some params.new_authority_key) params.authority_type params.owner_key,
        [params.owner_signer_seeds]⟩ with
    | error e1 =>
      simp [spl_set_authority, mk_set_authority, hcp, h3]
    | ok u =>
      cases u
      simp [spl_set_authority, mk_set_authority, hcp, h3]

/-- Claim C9 witness: at concrete parameters the single issued call carries
`some 5` as the new authority. -/
theorem claim_C9_witness :
    (spl_set_authority (fun _ => Except.ok ())
        ⟨4, 5, .AccountOwner, 6, [[8]], spl_token_id⟩).1 =
      [⟨.set_authority spl_token_id 4 (some 5) .AccountOwner 6, [[[8]]]⟩] ∧
    (⟨.set_authority spl_token_id 4 (some 5) .AccountOwner 6, [[[8]]]⟩ : TokenCpi).instr =
      .set_authority spl_token_id 4 (some 5) .AccountOwner 6 := by
  have h := claim_C9_set_authority_always_some (fun _ => Except.ok ())
    ⟨4, 5, .AccountOwner, 6, [[8]], spl_token_id⟩
  refine ⟨h.2 rfl, h.1 _ ?_⟩
  rw [h.2 rfl]
  exact List.mem_singleton.mpr rfl

end Separate
